import Mathlib

/-!
Verification of the resilient HTTP client and run orchestrator of the
tap-ebay connector (src/tap_ebay/client.py, src/tap_ebay/__init__.py),
as a shallow embedding: the network is modelled as a script, a list of
transport events (HTTP responses or connection failures) consumed one
per attempted call, and the mutable client object is threaded explicitly.
-/

namespace TapEbay

/-- `DEFAULT_RETRY_RATE_LIMIT` from src/tap_ebay/client.py line 12. -/
def DEFAULT_RETRY_RATE_LIMIT : Int := 360

/-- The mutable state of an `EbayClient` instance (src/tap_ebay/client.py
lines 28-33): `config`, `token` (set inside `authorize`), `access_token`
(set in `__init__` from `authorize`'s return value) and `_retry_after`.
`Option String` models a field that may hold Python `None`. -/
structure Client where
  config : List (String × String)
  token : Option String
  access_token : Option String
  retry_after : Int
deriving DecidableEq

/-- Digits of a decimal literal read as a natural number. -/
def digitsToNat (s : List Char) : Nat :=
  s.foldl (fun acc c => 10 * acc + (c.toNat - 48)) 0

/-- The integer Python's `int(float(s))` produces on a plain decimal
literal: optional sign, then digits, then an optional fractional part,
truncated toward zero; `none` models the `ValueError` raised on any
other string.  (Python's `float` also accepts exponents, leading dots,
`inf`/`nan` and surrounding whitespace; no claim here exercises those,
and on plain decimal literals within double precision the two agree.) -/
def parseDecimal (s : String) : Option Int :=
  let step : Int × List Char → Option Int := fun (sign, cs) =>
    let intPart := cs.takeWhile Char.isDigit
    let rest := cs.dropWhile Char.isDigit
    if intPart.isEmpty then none
    else
      match rest with
      | [] => some (sign * (digitsToNat intPart : Int))
      | '.' :: frac =>
        if frac.all Char.isDigit then some (sign * (digitsToNat intPart : Int))
        else none
      | _ => none
  match s.toList with
  | '-' :: cs => step (-1, cs)
  | '+' :: cs => step (1, cs)
  | cs => step (1, cs)

/-- The `_retry_after` value the 429 branch stores (src/tap_ebay/client.py
lines 105-111): `int(float(resp.headers.get("X-EBAY-C-RATE-LIMIT",
DEFAULT_RETRY_RATE_LIMIT)))`, with `TypeError`/`ValueError` caught and
replaced by the default.  An absent header makes `headers.get` return
the integer default 360 itself, which converts to 360. -/
def updateRetryAfter (header : Option String) : Int :=
  match header with
  | none => DEFAULT_RETRY_RATE_LIMIT
  | some s => (parseDecimal s).getD DEFAULT_RETRY_RATE_LIMIT

/-- An HTTP response as `make_request` inspects it: status code, body
text, the `X-EBAY-C-RATE-LIMIT` header (when set), and the parsed JSON
body (`resp.json()`), abstracted to a type parameter `J`. -/
structure HttpResponse (J : Type) where
  status_code : Nat
  text : String
  rateLimitHeader : Option String
  json : J
deriving DecidableEq

/-- One transport event per attempted call: either a response arrives,
or `requests.request` itself raises `ConnectionError`. -/
inductive NetEvent (J : Type) where
  | resp (r : HttpResponse J)
  | connError
deriving DecidableEq

/-- The exceptions `_call` can raise (src/tap_ebay/client.py lines
20-25, 103-114), plus `noResponse` marking exhaustion of the modelled
transport script (no real counterpart; scripts are made long enough). -/
inductive ReqError where
  | server5xx
  | server429
  | runtimeError (text : String)
  | connectionError
  | noResponse
deriving DecidableEq

/-- The body of `_call` (src/tap_ebay/client.py lines 89-116) acting on
one transport event: 5xx raises `Server5xxError`; 429 stores the
header-derived `_retry_after` and raises `Server429Error`; any other
non-200 raises `RuntimeError(resp.text)`; 200 returns the response. -/
def callOnce (c : Client) (e : NetEvent J) : Client × Except ReqError J :=
  match e with
  | .connError => (c, .error .connectionError)
  | .resp r =>
    if 500 ≤ r.status_code ∧ r.status_code < 600 then
      (c, .error .server5xx)
    else if r.status_code = 429 then
      ({ c with retry_after := updateRetryAfter r.rateLimitHeader },
       .error .server429)
    else if r.status_code ≠ 200 then
      (c, .error (.runtimeError r.text))
    else
      (c, .ok r.json)

/-- Result of a (possibly retried) call: final client state, number of
HTTP calls performed, unconsumed transport events, and the outcome. -/
structure CallOutcome (J : Type) where
  client : Client
  calls : Nat
  rest : List (NetEvent J)
  result : Except ReqError J

/-- Exceptions the inner `backoff.expo` layer retries on
(src/tap_ebay/client.py lines 84-88): `ConnectionError` and
`Server5xxError`. -/
def retriableExpo : ReqError → Bool
  | .server5xx => true
  | .connectionError => true
  | _ => false

/-- The inner `backoff.on_exception(backoff.expo, (ConnectionError,
Server5xxError), max_tries=5)` layer: `tries` is the remaining attempt
budget of this invocation (5 on entry); a retriable error with budget
left triggers another attempt, any other outcome is returned. -/
def expoLayer : Nat → Client → List (NetEvent J) → CallOutcome J
  | _, c, [] => ⟨c, 0, [], .error .noResponse⟩
  | tries, c, e :: rest =>
    match callOnce c e with
    | (c', .error err) =>
      if retriableExpo err = true ∧ 1 < tries then
        let o := expoLayer (tries - 1) c' rest
        ⟨o.client, o.calls + 1, o.rest, o.result⟩
      else ⟨c', 1, rest, .error err⟩
    | (c', .ok v) => ⟨c', 1, rest, .ok v⟩

/-- The outer `backoff.on_exception(self._rate_limit_backoff,
Server429Error, max_tries=5, jitter=None)` layer: each of its attempts
runs the expo-wrapped function with a fresh inner budget of 5; only
`Server429Error` is retried, while its budget (2 or more tries left)
allows. -/
def rateLimitLayer : Nat → Client → List (NetEvent J) → CallOutcome J
  | tries, c, events =>
    let o := expoLayer 5 c events
    match tries, o.result with
    | t + 2, .error .server429 =>
      let o2 := rateLimitLayer (t + 1) o.client o.rest
      ⟨o2.client, o.calls + o2.calls, o2.rest, o2.result⟩
    | _, _ => o

/-- `EbayClient.make_request` (src/tap_ebay/client.py lines 77-119):
the doubly-decorated `_call` run against the transport script; on
success the `.ok` payload is the parsed JSON body returned by line 119. -/
def make_request (c : Client) (events : List (NetEvent J)) : CallOutcome J :=
  rateLimitLayer 5 c events

/-- The `Authorization` header `make_request` sends (src/tap_ebay/client.py
line 97): the word `Bearer` followed by the str-formatted
`self.access_token`; Python str-formats `None` as the text `None`. -/
def authHeader (c : Client) : String :=
  match c.access_token with
  | none => "Bearer None"
  | some t => "Bearer " ++ t

/-- A response of the OAuth token endpoint as `authorize` inspects it:
status code and the JSON object body (string fields only). -/
structure AuthResponse where
  status_code : Nat
  json : List (String × String)
deriving DecidableEq

/-- Python `data[key]` on a JSON object: first binding of `key`. -/
def jsonField (fields : List (String × String)) (key : String) : Option String :=
  (fields.find? (fun p => p.1 = key)).map (fun p => p.2)

/-- Failures of `authorize`: `response.raise_for_status()` raising
`HTTPError` on a 4xx/5xx status, or `KeyError` on a JSON body with no
`access_token` field. -/
inductive AuthError where
  | httpError (status : Nat)
  | keyError
deriving DecidableEq

/-- What `authorize` leaves behind: the value stored into `self.token`
(line 60) and its Python return value — `None`, since `authorize` has
no return statement. -/
structure AuthOutcome where
  token : String
  returned : Option String
deriving DecidableEq

/-- `EbayClient.authorize` (src/tap_ebay/client.py lines 35-60) given
the token endpoint's response: `raise_for_status`, then store
`data['access_token']` into `self.token`, and fall off the end
returning `None`. -/
def authorize (resp : AuthResponse) : Except AuthError AuthOutcome :=
  if 400 ≤ resp.status_code ∧ resp.status_code < 600 then
    .error (.httpError resp.status_code)
  else
    match jsonField resp.json "access_token" with
    | none => .error .keyError
    | some t => .ok ⟨t, none⟩

/-- `EbayClient.__init__` (src/tap_ebay/client.py lines 30-33):
`_retry_after` starts at the default, and `access_token` is assigned
`authorize`'s return value while `authorize` itself sets `token`. -/
def initClient (config : List (String × String)) (authResp : AuthResponse) :
    Except AuthError Client :=
  match authorize authResp with
  | .error e => .error e
  | .ok out => .ok ⟨config, some out.token, out.returned, DEFAULT_RETRY_RATE_LIMIT⟩

/-- A catalog entry as the runner reads it: the stream name and whether
the entry is marked selected. -/
structure CatalogEntry where
  stream : String
  selected : Bool
deriving DecidableEq

/-- The `RuntimeError` raised by `get_streams_to_replicate`
(src/tap_ebay/__init__.py lines 41-47), kept structured: its message
interpolates `stream` and the comma-join of `requires`, so the error
names every stream in `requires`. -/
structure ConfigError where
  stream : String
  requires : List String
deriving DecidableEq

/-- An available stream class, over an abstract state type `S`:
its `TABLE` name, its `REQUIRES` list, its state update (identity for
the full-table streams present), and the number of HTTP resource calls
its `sync` performs. -/
structure AvailableStream (S : Type) where
  name : String
  REQUIRES : List String
  update : S → S
  httpCalls : Nat

/-- Modelled from the spec: `is_stream_selected`
(src/tap_ebay/streams/base.py, absent from src/) — "a stream is
replicated only if its catalog entry is explicitly marked selected". -/
def is_stream_selected (c : CatalogEntry) : Bool :=
  c.selected

/-- Modelled from the spec: `matches_catalog`
(src/tap_ebay/streams/base.py, absent from src/) — each stream type
declares a unique name, and a catalog entry matches the stream type of
that name. -/
def matches_catalog (a : AvailableStream S) (c : CatalogEntry) : Bool :=
  a.name = c.stream

/-- Modelled from the spec: `requirements_met`
(src/tap_ebay/streams/base.py, absent from src/) — "all of its declared
prerequisite streams (if any) are also selected" in the catalog. -/
def requirements_met (a : AvailableStream S) (catalog : List CatalogEntry) : Bool :=
  a.REQUIRES.all (fun r => catalog.any (fun c => c.stream = r && c.selected))

/-- The inner `for available_stream in self.available_streams` loop of
`get_streams_to_replicate` (src/tap_ebay/__init__.py lines 38-53) for
one selected catalog entry: each matching stream with unmet
requirements raises; each matching stream with met requirements is
appended, and the loop continues over the remaining stream types. -/
def processEntry (catalog : List CatalogEntry) (c : CatalogEntry) :
    List (AvailableStream S) → Except ConfigError (List (AvailableStream S))
  | [] => .ok []
  | a :: rest =>
    if matches_catalog a c then
      if requirements_met a catalog = false then
        .error ⟨c.stream, a.REQUIRES⟩
      else
        match processEntry catalog c rest with
        | .error e => .error e
        | .ok tl => .ok (a :: tl)
    else processEntry catalog c rest

/-- The outer `for stream_catalog in self.catalog.streams` loop of
`get_streams_to_replicate` (src/tap_ebay/__init__.py lines 29-53):
unselected entries are skipped, selected entries are processed against
the available stream types with requirement checks done against the
full catalog. -/
def gstrGo (catalog : List CatalogEntry) (avails : List (AvailableStream S)) :
    List CatalogEntry → Except ConfigError (List (AvailableStream S))
  | [] => .ok []
  | c :: cs =>
    if is_stream_selected c then
      match processEntry catalog c avails with
      | .error e => .error e
      | .ok hd =>
        match gstrGo catalog avails cs with
        | .error e => .error e
        | .ok tl => .ok (hd ++ tl)
    else gstrGo catalog avails cs

/-- `EbayRunner.get_streams_to_replicate` (src/tap_ebay/__init__.py
lines 26-55). -/
def get_streams_to_replicate (catalog : List CatalogEntry)
    (avails : List (AvailableStream S)) :
    Except ConfigError (List (AvailableStream S)) :=
  gstrGo catalog avails catalog

/-- Observable trace of a sync run: stream names in replication order,
the states persisted in order, and the HTTP resource calls performed. -/
structure SyncTrace (S : Type) where
  synced : List String
  persists : List S
  httpCalls : Nat

/-- The `for stream in streams` loop of `do_sync`
(src/tap_ebay/__init__.py lines 74-90): each stream receives the
cumulative state, syncs, and hands its updated state back; the final
`save_state(self.state)` persists the cumulative state once more at the
end.  The per-stream persist is modelled from the spec:
`BaseStream.sync` (src/tap_ebay/streams/base.py, absent from src/)
persists the cumulative state after the stream's success. -/
def runStreams : List (AvailableStream S) → S → SyncTrace S
  | [], st => ⟨[], [st], 0⟩
  | a :: rest, st =>
    let st' := a.update st
    let t := runStreams rest st'
    ⟨a.name :: t.synced, st' :: t.persists, a.httpCalls + t.httpCalls⟩

/-- Outcome of `do_sync`: the HTTP resource calls performed and either
the configuration error or the completed trace. -/
structure SyncOutcome (S : Type) where
  httpCalls : Nat
  result : Except ConfigError (SyncTrace S)

/-- `EbayRunner.do_sync` (src/tap_ebay/__init__.py lines 69-90):
`get_streams_to_replicate` runs before any stream syncs — a
configuration error therefore aborts the run with zero HTTP resource
calls performed. -/
def do_sync (catalog : List CatalogEntry) (avails : List (AvailableStream S))
    (st : S) : SyncOutcome S :=
  match get_streams_to_replicate catalog avails with
  | .error e => ⟨0, .error e⟩
  | .ok streams =>
    let t := runStreams streams st
    ⟨t.httpCalls, .ok t⟩

/-! ## Theorems -/

/-- C1: for every response whose status code is not 200, not in
[500,599] and not 429, `make_request` raises `RuntimeError` carrying
the response body text verbatim, after exactly one HTTP call — neither
backoff layer retries it, and the client state is unchanged. -/
theorem c1_fatal_raises_immediately {J : Type} (c : Client) (r : HttpResponse J)
    (rest : List (NetEvent J))
    (h200 : r.status_code ≠ 200)
    (h5xx : ¬ (500 ≤ r.status_code ∧ r.status_code < 600))
    (h429 : r.status_code ≠ 429) :
    make_request c (.resp r :: rest) = ⟨c, 1, rest, .error (.runtimeError r.text)⟩ := by
  simp [make_request, rateLimitLayer, expoLayer, callOnce, retriableExpo,
    h200, h5xx, h429]

/-- Witness for C1: a 404 response with body text `nf` produces
`RuntimeError "nf"` after one call. -/
theorem c1_fatal_raises_immediately_witness :
    make_request ⟨[], none, none, 360⟩
        [NetEvent.resp (⟨404, "nf", none, 0⟩ : HttpResponse Nat)] =
      ⟨⟨[], none, none, 360⟩, 1, [], .error (.runtimeError "nf")⟩ :=
  c1_fatal_raises_immediately ⟨[], none, none, 360⟩ ⟨404, "nf", none, 0⟩ []
    (by decide) (by decide) (by decide)

/-- C9: for every response with status 200, `make_request` returns the
parsed JSON body unchanged after exactly one HTTP call, with the client
state unchanged. -/
theorem c9_success_returns_json_one_call {J : Type} (c : Client)
    (r : HttpResponse J) (rest : List (NetEvent J))
    (h : r.status_code = 200) :
    make_request c (.resp r :: rest) = ⟨c, 1, rest, .ok r.json⟩ := by
  simp [make_request, rateLimitLayer, expoLayer, callOnce, retriableExpo, h]

/-- Witness for C9: a 200 response with JSON body 42 yields `.ok 42`
after one call. -/
theorem c9_success_returns_json_one_call_witness :
    make_request ⟨[], none, none, 360⟩
        [NetEvent.resp (⟨200, "", none, 42⟩ : HttpResponse Nat),
         NetEvent.resp (⟨500, "", none, 0⟩ : HttpResponse Nat)] =
      ⟨⟨[], none, none, 360⟩, 1,
        [NetEvent.resp (⟨500, "", none, 0⟩ : HttpResponse Nat)], .ok 42⟩ :=
  c9_success_returns_json_one_call ⟨[], none, none, 360⟩ ⟨200, "", none, 42⟩
    [NetEvent.resp ⟨500, "", none, 0⟩] rfl

/-- C2: on a 429 response the `_call` body stores the header-derived
value into the client's `retry_after` before raising `Server429Error`:
`int(float(header))` when the header parses (header `12.0` gives 12),
and the default 360 when it is absent or unparsable (header `garbage`
gives 360); after exhausting the rate-limit layer on five such
responses, `make_request` propagates `Server429Error` with that same
`retry_after` stored. -/
theorem c2_429_sets_retry_after {J : Type} (c : Client) (r : HttpResponse J)
    (h : r.status_code = 429) :
    callOnce c (.resp r) =
      ({ c with retry_after := updateRetryAfter r.rateLimitHeader },
        .error .server429)
    ∧ (r.rateLimitHeader = none → updateRetryAfter r.rateLimitHeader = 360)
    ∧ (∀ s n, parseDecimal s = some n → updateRetryAfter (some s) = n)
    ∧ (∀ s, parseDecimal s = none → updateRetryAfter (some s) = 360)
    ∧ updateRetryAfter (some "12.0") = 12
    ∧ updateRetryAfter (some "garbage") = 360
    ∧ make_request c [.resp r, .resp r, .resp r, .resp r, .resp r] =
        ⟨{ c with retry_after := updateRetryAfter r.rateLimitHeader }, 5, [],
          .error .server429⟩ := by
  refine ⟨by simp [callOnce, h],
    fun hn => by simp [hn, updateRetryAfter, DEFAULT_RETRY_RATE_LIMIT],
    fun s n hs => by simp [updateRetryAfter, hs],
    fun s hs => by simp [updateRetryAfter, hs, DEFAULT_RETRY_RATE_LIMIT],
    rfl, rfl, ?_⟩
  simp [make_request, rateLimitLayer, expoLayer, callOnce, retriableExpo, h]

/-- Witness for C2: a 429 response carrying header value `12.0` stores
`retry_after = 12`. -/
theorem c2_429_sets_retry_after_witness :
    callOnce ⟨[], none, none, 360⟩
        (NetEvent.resp (⟨429, "", some "12.0", 0⟩ : HttpResponse Nat)) =
      (⟨[], none, none, 12⟩, .error .server429) := by
  have h := (c2_429_sets_retry_after (J := Nat) ⟨[], none, none, 360⟩
    ⟨429, "", some "12.0", 0⟩ rfl).1
  simpa [updateRetryAfter, parseDecimal, digitsToNat] using h

/-- C3: every status in [500,599] is classified `Server5xxError` and
retried by the exponential layer up to 5 total attempts; when all five
attempts hit such statuses, `Server5xxError` itself propagates (not a
different error kind), after exactly 5 HTTP calls, leaving the client
unchanged. -/
theorem c3_5xx_retried_then_propagates {J : Type} (c : Client)
    (r1 r2 r3 r4 r5 : HttpResponse J) (rest : List (NetEvent J))
    (h1 : 500 ≤ r1.status_code ∧ r1.status_code < 600)
    (h2 : 500 ≤ r2.status_code ∧ r2.status_code < 600)
    (h3 : 500 ≤ r3.status_code ∧ r3.status_code < 600)
    (h4 : 500 ≤ r4.status_code ∧ r4.status_code < 600)
    (h5 : 500 ≤ r5.status_code ∧ r5.status_code < 600) :
    make_request c
        (.resp r1 :: .resp r2 :: .resp r3 :: .resp r4 :: .resp r5 :: rest) =
      ⟨c, 5, rest, .error .server5xx⟩ := by
  simp [make_request, rateLimitLayer, expoLayer, callOnce, retriableExpo,
    h1.1, h1.2, h2.1, h2.2, h3.1, h3.2, h4.1, h4.2, h5.1, h5.2]

/-- Witness for C3: five straight 503 responses exhaust the exponential
layer and `Server5xxError` propagates after 5 calls. -/
theorem c3_5xx_retried_then_propagates_witness :
    make_request ⟨[], none, none, 360⟩
        (List.replicate 5 (NetEvent.resp (⟨503, "", none, 0⟩ : HttpResponse Nat))) =
      ⟨⟨[], none, none, 360⟩, 5, [], .error .server5xx⟩ :=
  c3_5xx_retried_then_propagates ⟨[], none, none, 360⟩
    ⟨503, "", none, 0⟩ ⟨503, "", none, 0⟩ ⟨503, "", none, 0⟩
    ⟨503, "", none, 0⟩ ⟨503, "", none, 0⟩ []
    (by decide) (by decide) (by decide) (by decide) (by decide)

/-- C4: the two backoff layers keep independent budgets keyed by
exception type: on the response sequence 429, 429, 500, 500, 200 the
outer rate-limit layer absorbs the two 429s (each restarting the inner
layer), the inner exponential layer absorbs the two 500s, and
`make_request` succeeds on the 5th call returning the 200 body — for
any starting client, whose `retry_after` ends at the default 360 stored
by the headerless 429s. -/
theorem c4_independent_retry_budgets (c : Client) :
    make_request c
        [NetEvent.resp (⟨429, "", none, 1⟩ : HttpResponse Nat),
         .resp ⟨429, "", none, 2⟩, .resp ⟨500, "", none, 3⟩,
         .resp ⟨500, "", none, 4⟩, .resp ⟨200, "", none, 77⟩] =
      ⟨{ c with retry_after := 360 }, 5, [], .ok 77⟩ := by
  simp [make_request, rateLimitLayer, expoLayer, callOnce, retriableExpo,
    updateRetryAfter, DEFAULT_RETRY_RATE_LIMIT]

/-- Witness for C4: starting from a client with `retry_after = 7`, the
sequence 429, 429, 500, 500, 200 succeeds on the 5th call with body 77
and leaves `retry_after` at the default stored by the headerless 429s. -/
theorem c4_independent_retry_budgets_witness :
    make_request ⟨[], none, none, 7⟩
        [NetEvent.resp (⟨429, "", none, 1⟩ : HttpResponse Nat),
         .resp ⟨429, "", none, 2⟩, .resp ⟨500, "", none, 3⟩,
         .resp ⟨500, "", none, 4⟩, .resp ⟨200, "", none, 77⟩] =
      ⟨⟨[], none, none, 360⟩, 5, [], .ok 77⟩ :=
  c4_independent_retry_budgets ⟨[], none, none, 7⟩

/-- C6 counterexample: the 429 branch does not always leave
`retry_after` positive — a parsable negative header value is stored as
is: header `-5` drives the client's `retry_after` to −5. -/
theorem c6_retry_after_positive_counterexample :
    (make_request ⟨[], none, none, 360⟩
        (List.replicate 5
          (NetEvent.resp (⟨429, "", some "-5", 0⟩ : HttpResponse Nat)))).client.retry_after
        = -5
    ∧ ¬ (0 < (make_request ⟨[], none, none, 360⟩
        (List.replicate 5
          (NetEvent.resp (⟨429, "", some "-5", 0⟩ : HttpResponse Nat)))).client.retry_after) := by
  decide

/-- C6 as amended: `retry_after` starts at the positive default 360 and
stays an integer; the 429 branch stores 360 whenever the header is
absent or does not parse, while a parsable header value is stored as
`int(float(value))`, which may be zero or negative. -/
theorem c6_retry_after_amended :
    DEFAULT_RETRY_RATE_LIMIT = 360
    ∧ (0 : Int) < DEFAULT_RETRY_RATE_LIMIT
    ∧ updateRetryAfter none = 360
    ∧ (∀ s, parseDecimal s = none → updateRetryAfter (some s) = 360)
    ∧ (∀ s n, parseDecimal s = some n → updateRetryAfter (some s) = n) := by
  refine ⟨rfl, by decide, rfl, fun s hs => ?_, fun s n hs => ?_⟩
  · simp [updateRetryAfter, hs, DEFAULT_RETRY_RATE_LIMIT]
  · simp [updateRetryAfter, hs]

/-- Witness for C6 as amended: header `garbage` stores 360, header `-5`
stores −5. -/
theorem c6_retry_after_amended_witness :
    updateRetryAfter (some "garbage") = 360 ∧ updateRetryAfter (some "-5") = -5 :=
  ⟨c6_retry_after_amended.2.2.2.1 "garbage" (by decide),
   c6_retry_after_amended.2.2.2.2 "-5" (-5) (by decide)⟩

/-- C5: evaluation at the failing input. When the token endpoint
responds 200 with JSON carrying `access_token = abc` (and an unrelated
`token` field), `authorize` stores `abc` into `self.token` but returns
`None`; `__init__` assigns that `None` to `self.access_token`, so
every subsequent `make_request` sends `Authorization: Bearer None`
rather than `Bearer abc` as the claim states. -/
theorem c5_access_token_never_carried :
    initClient [] ⟨200, [("access_token", "abc"), ("token", "zzz")]⟩ =
      .ok ⟨[], some "abc", none, 360⟩
    ∧ authHeader ⟨[], some "abc", none, 360⟩ = "Bearer None"
    ∧ "Bearer None" ≠ "Bearer abc" := by
  refine ⟨rfl, rfl, by decide⟩

/-- Whether a transport event is a 429 response. -/
def is429 {J : Type} : NetEvent J → Bool
  | .resp r => r.status_code == 429
  | .connError => false

lemma expoLayer_cons_retry {J : Type} {c c' : Client} {e : NetEvent J}
    {err : ReqError} {tries : Nat} {rest : List (NetEvent J)}
    (hco : callOnce c e = (c', .error err))
    (hr : retriableExpo err = true ∧ 1 < tries) :
    expoLayer tries c (e :: rest) =
      ⟨(expoLayer (tries - 1) c' rest).client,
       (expoLayer (tries - 1) c' rest).calls + 1,
       (expoLayer (tries - 1) c' rest).rest,
       (expoLayer (tries - 1) c' rest).result⟩ := by
  simp [expoLayer, hco, hr]

lemma expoLayer_cons_stop {J : Type} {c c' : Client} {e : NetEvent J}
    {err : ReqError} {tries : Nat} {rest : List (NetEvent J)}
    (hco : callOnce c e = (c', .error err))
    (hr : ¬ (retriableExpo err = true ∧ 1 < tries)) :
    expoLayer tries c (e :: rest) = ⟨c', 1, rest, .error err⟩ := by
  simp [expoLayer, hco, hr]

lemma expoLayer_cons_ok {J : Type} {c c' : Client} {e : NetEvent J}
    {v : J} {tries : Nat} {rest : List (NetEvent J)}
    (hco : callOnce c e = (c', .ok v)) :
    expoLayer tries c (e :: rest) = ⟨c', 1, rest, .ok v⟩ := by
  simp [expoLayer, hco]

lemma rateLimitLayer_of_not429 {J : Type} (tries : Nat) (c : Client)
    (events : List (NetEvent J))
    (h : (expoLayer 5 c events).result ≠ .error .server429) :
    rateLimitLayer tries c events = expoLayer 5 c events := by
  rcases tries with _ | _ | t
  · rfl
  · rfl
  · rcases hres : (expoLayer 5 c events).result with err | v
    · cases err
      case server429 => exact absurd hres h
      all_goals simp [rateLimitLayer, hres]
    · simp [rateLimitLayer, hres]

lemma rateLimitLayer_step {J : Type} (t : Nat) (c : Client)
    (events : List (NetEvent J))
    (h : (expoLayer 5 c events).result = .error .server429) :
    rateLimitLayer (t + 2) c events =
      ⟨(rateLimitLayer (t + 1) (expoLayer 5 c events).client (expoLayer 5 c events).rest).client,
       (expoLayer 5 c events).calls +
         (rateLimitLayer (t + 1) (expoLayer 5 c events).client (expoLayer 5 c events).rest).calls,
       (rateLimitLayer (t + 1) (expoLayer 5 c events).client (expoLayer 5 c events).rest).rest,
       (rateLimitLayer (t + 1) (expoLayer 5 c events).client (expoLayer 5 c events).rest).result⟩ := by
  show rateLimitLayer (Nat.succ (Nat.succ t)) c events = _
  simp [rateLimitLayer, h]

lemma callOnce_frame {J : Type} (c : Client) (e : NetEvent J) :
    (callOnce c e).1.config = c.config ∧ (callOnce c e).1.token = c.token ∧
      (callOnce c e).1.access_token = c.access_token := by
  cases e with
  | connError => exact ⟨rfl, rfl, rfl⟩
  | resp r => simp only [callOnce]; split_ifs <;> exact ⟨rfl, rfl, rfl⟩

lemma callOnce_not429_client {J : Type} (c : Client) (e : NetEvent J)
    (h : is429 e = false) : (callOnce c e).1 = c := by
  cases e with
  | connError => rfl
  | resp r =>
    simp [is429] at h
    simp only [callOnce]
    split_ifs <;> rfl

lemma callOnce_not429_result {J : Type} (c : Client) (e : NetEvent J)
    (h : is429 e = false) : (callOnce c e).2 ≠ .error .server429 := by
  cases e with
  | connError => simp [callOnce]
  | resp r =>
    simp [is429] at h
    simp only [callOnce]
    split_ifs <;> simp_all

lemma expoLayer_frame {J : Type} (events : List (NetEvent J)) :
    ∀ (tries : Nat) (c : Client),
      (expoLayer tries c events).client.config = c.config ∧
      (expoLayer tries c events).client.token = c.token ∧
      (expoLayer tries c events).client.access_token = c.access_token := by
  induction events with
  | nil => intro tries c; exact ⟨rfl, rfl, rfl⟩
  | cons e rest ih =>
    intro tries c
    obtain ⟨h1, h2, h3⟩ := callOnce_frame c e
    rcases hco : callOnce c e with ⟨c', res⟩
    rw [hco] at h1 h2 h3
    rcases res with err | v
    · by_cases hr : retriableExpo err = true ∧ 1 < tries
      · obtain ⟨i1, i2, i3⟩ := ih (tries - 1) c'
        rw [expoLayer_cons_retry hco hr]
        exact ⟨i1.trans h1, i2.trans h2, i3.trans h3⟩
      · rw [expoLayer_cons_stop hco hr]
        exact ⟨h1, h2, h3⟩
    · rw [expoLayer_cons_ok hco]
      exact ⟨h1, h2, h3⟩

lemma expoLayer_not429 {J : Type} (events : List (NetEvent J)) :
    ∀ (tries : Nat) (c : Client), (∀ e ∈ events, is429 e = false) →
      (expoLayer tries c events).client = c ∧
      (expoLayer tries c events).result ≠ .error .server429 ∧
      (∀ e ∈ (expoLayer tries c events).rest, is429 e = false) := by
  induction events with
  | nil =>
    intro tries c _
    exact ⟨rfl, by simp [expoLayer], by simp [expoLayer]⟩
  | cons e rest ih =>
    intro tries c h
    have he : is429 e = false := h e (by simp)
    have hrest : ∀ x ∈ rest, is429 x = false := fun x hx => h x (by simp [hx])
    have hcl := callOnce_not429_client c e he
    have hres := callOnce_not429_result c e he
    rcases hco : callOnce c e with ⟨c', res⟩
    rw [hco] at hcl hres
    rcases res with err | v
    · by_cases hr : retriableExpo err = true ∧ 1 < tries
      · obtain ⟨i1, i2, i3⟩ := ih (tries - 1) c' hrest
        rw [expoLayer_cons_retry hco hr]
        exact ⟨i1.trans hcl, i2, i3⟩
      · rw [expoLayer_cons_stop hco hr]
        exact ⟨hcl, hres, hrest⟩
    · rw [expoLayer_cons_ok hco]
      exact ⟨hcl, by simp, hrest⟩

lemma rateLimitLayer_frame {J : Type} :
    ∀ (tries : Nat) (c : Client) (events : List (NetEvent J)),
      (rateLimitLayer tries c events).client.config = c.config ∧
      (rateLimitLayer tries c events).client.token = c.token ∧
      (rateLimitLayer tries c events).client.access_token = c.access_token := by
  intro tries
  induction tries with
  | zero => intro c events; exact expoLayer_frame events 5 c
  | succ n ih =>
    intro c events
    rcases n with _ | m
    · exact expoLayer_frame events 5 c
    · rcases hres : (expoLayer 5 c events).result with err | v
      · rcases err with _ | _ | t | _ | _
        case server429 =>
          rw [rateLimitLayer_step m c events hres]
          obtain ⟨e1, e2, e3⟩ := expoLayer_frame events 5 c
          obtain ⟨i1, i2, i3⟩ :=
            ih (expoLayer 5 c events).client (expoLayer 5 c events).rest
          exact ⟨i1.trans e1, i2.trans e2, i3.trans e3⟩
        all_goals
          rw [rateLimitLayer_of_not429 _ c events (by simp [hres])]
          exact expoLayer_frame events 5 c
      · rw [rateLimitLayer_of_not429 _ c events (by simp [hres])]
        exact expoLayer_frame events 5 c

/-- C10: `make_request` never touches the client's `config`, `token` or
`access_token` on any path, and it leaves `retry_after` (hence the
whole client) unchanged whenever no event of the consumed script is a
429 response — i.e. only the 429 branch mutates `retry_after`. -/
theorem c10_make_request_frame {J : Type} (c : Client)
    (events : List (NetEvent J)) :
    ((make_request c events).client.config = c.config ∧
     (make_request c events).client.token = c.token ∧
     (make_request c events).client.access_token = c.access_token) ∧
    ((∀ e ∈ events, is429 e = false) → (make_request c events).client = c) := by
  constructor
  · exact rateLimitLayer_frame 5 c events
  · intro h
    obtain ⟨h1, h2, _⟩ := expoLayer_not429 events 5 c h
    rw [make_request, rateLimitLayer_of_not429 5 c events h2]
    exact h1

/-- Witness for C10: a script of a 500 then a 404 (no 429) leaves the
whole client, `retry_after` included, unchanged. -/
theorem c10_make_request_frame_witness :
    (make_request ⟨[("k", "v")], some "t", some "u", 99⟩
        [NetEvent.resp (⟨500, "", none, 0⟩ : HttpResponse Nat),
         NetEvent.resp (⟨404, "x", none, 0⟩ : HttpResponse Nat)]).client =
      ⟨[("k", "v")], some "t", some "u", 99⟩ :=
  (c10_make_request_frame ⟨[("k", "v")], some "t", some "u", 99⟩
    [NetEvent.resp ⟨500, "", none, 0⟩, NetEvent.resp ⟨404, "x", none, 0⟩]).2
    (by decide)

lemma scanl_head_tail {S A : Type} (f : S → A → S) (b : S) (l : List A) :
    b :: (List.scanl f b l).tail = List.scanl f b l := by
  cases l with
  | nil => simp [List.scanl_nil]
  | cons a l => simp [List.scanl_cons]

lemma runStreams_spec {S : Type} :
    ∀ (streams : List (AvailableStream S)) (st : S),
      (runStreams streams st).synced = streams.map (fun a => a.name) ∧
      (runStreams streams st).persists =
        (List.scanl (fun s a => a.update s) st streams).tail ++
          [streams.foldl (fun s a => a.update s) st] := by
  intro streams
  induction streams with
  | nil => intro st; simp [runStreams, List.scanl_nil]
  | cons a rest ih =>
    intro st
    obtain ⟨ihs, ihp⟩ := ih (a.update st)
    refine ⟨by simp [runStreams, ihs], ?_⟩
    simp only [runStreams, ihp, List.scanl_cons, List.singleton_append,
      List.tail_cons, List.foldl_cons]
    rw [← List.cons_append, scanl_head_tail]

/-- C7: in sync mode, when stream selection succeeds, `do_sync`
replicates exactly the streams `get_streams_to_replicate` returns, in
that (declaration) order, and the persisted states are the cumulative
state after each stream's success followed by one final persist of the
cumulative end state (`save_state` after the loop). -/
theorem c7_sync_order_and_persistence {S : Type} (catalog : List CatalogEntry)
    (avails streams : List (AvailableStream S)) (st : S)
    (h : get_streams_to_replicate catalog avails = .ok streams) :
    (do_sync catalog avails st).result = .ok (runStreams streams st) ∧
    (runStreams streams st).synced = streams.map (fun a => a.name) ∧
    (runStreams streams st).persists =
      (List.scanl (fun s a => a.update s) st streams).tail ++
        [streams.foldl (fun s a => a.update s) st] := by
  obtain ⟨hs, hp⟩ := runStreams_spec streams st
  exact ⟨by simp [do_sync, h], hs, hp⟩

/-- Witness for C7: one selected `orders` stream with no prerequisites,
updating state by adding one: it is replicated, its post-success state
1 is persisted, and the final persist repeats the cumulative state 1. -/
theorem c7_sync_order_and_persistence_witness :
    (do_sync [⟨"orders", true⟩]
        [(⟨"orders", [], fun s => s + 1, 2⟩ : AvailableStream Nat)] 0).result =
      .ok (runStreams [(⟨"orders", [], fun s => s + 1, 2⟩ : AvailableStream Nat)] 0) ∧
    (runStreams [(⟨"orders", [], fun s => s + 1, 2⟩ : AvailableStream Nat)] 0).synced =
      ["orders"] ∧
    (runStreams [(⟨"orders", [], fun s => s + 1, 2⟩ : AvailableStream Nat)] 0).persists =
      [1, 1] := by
  have h := c7_sync_order_and_persistence [⟨"orders", true⟩]
    [(⟨"orders", [], fun s => s + 1, 2⟩ : AvailableStream Nat)]
    [(⟨"orders", [], fun s => s + 1, 2⟩ : AvailableStream Nat)] 0 rfl
  simpa using h

lemma processEntry_error_inv {S : Type} (catalog : List CatalogEntry)
    (c : CatalogEntry) :
    ∀ (avails : List (AvailableStream S)) (e : ConfigError),
      processEntry catalog c avails = .error e →
      ∃ a ∈ avails, matches_catalog a c = true ∧
        requirements_met a catalog = false ∧ e = ⟨c.stream, a.REQUIRES⟩ := by
  intro avails
  induction avails with
  | nil => intro e h; simp [processEntry] at h
  | cons a rest ih =>
    intro e h
    by_cases hm : matches_catalog a c = true
    · by_cases hr : requirements_met a catalog = false
      · simp [processEntry, hm, hr] at h
        exact ⟨a, by simp, hm, hr, by simp [← h]⟩
      · simp only [processEntry, if_pos hm, if_neg hr] at h
        rcases hrec : processEntry catalog c rest with e' | tl
        · rw [hrec] at h
          simp at h
          obtain ⟨a', ha', hm', hr', he'⟩ := ih e' hrec
          exact ⟨a', List.mem_cons_of_mem _ ha', hm', hr', h ▸ he'⟩
        · rw [hrec] at h
          simp at h
    · simp only [processEntry, if_neg hm] at h
      obtain ⟨a', ha', hm', hr', he'⟩ := ih e h
      exact ⟨a', List.mem_cons_of_mem _ ha', hm', hr', he'⟩

lemma processEntry_error_of_unmet {S : Type} (catalog : List CatalogEntry)
    (c : CatalogEntry) :
    ∀ (avails : List (AvailableStream S)),
      (∃ a ∈ avails, matches_catalog a c = true ∧
        requirements_met a catalog = false) →
      ∃ e, processEntry catalog c avails = .error e := by
  intro avails
  induction avails with
  | nil => rintro ⟨a, ha, -⟩; simp at ha
  | cons a rest ih =>
    rintro ⟨a', ha', hm', hr'⟩
    by_cases hm : matches_catalog a c = true
    · by_cases hr : requirements_met a catalog = false
      · exact ⟨⟨c.stream, a.REQUIRES⟩, by simp [processEntry, hm, hr]⟩
      · have hin : ∃ x ∈ rest, matches_catalog x c = true ∧
            requirements_met x catalog = false := by
          rcases List.mem_cons.mp ha' with rfl | hmem
          · exact absurd hr' hr
          · exact ⟨a', hmem, hm', hr'⟩
        obtain ⟨e, he⟩ := ih hin
        exact ⟨e, by simp [processEntry, hm, hr, he]⟩
    · have hin : ∃ x ∈ rest, matches_catalog x c = true ∧
          requirements_met x catalog = false := by
        rcases List.mem_cons.mp ha' with rfl | hmem
        · exact absurd hm' hm
        · exact ⟨a', hmem, hm', hr'⟩
      obtain ⟨e, he⟩ := ih hin
      exact ⟨e, by simp [processEntry, hm, he]⟩

lemma gstrGo_error_inv {S : Type} (catalog : List CatalogEntry)
    (avails : List (AvailableStream S)) :
    ∀ (cs : List CatalogEntry) (e : ConfigError),
      gstrGo catalog avails cs = .error e →
      ∃ c ∈ cs, is_stream_selected c = true ∧
        ∃ a ∈ avails, matches_catalog a c = true ∧
          requirements_met a catalog = false ∧ e = ⟨c.stream, a.REQUIRES⟩ := by
  intro cs
  induction cs with
  | nil => intro e h; simp [gstrGo] at h
  | cons c0 cs ih =>
    intro e h
    by_cases hsel : is_stream_selected c0 = true
    · rcases hpe : processEntry catalog c0 avails with e0 | hd
      · have he0 : e = e0 := by
          simp only [gstrGo, if_pos hsel, hpe] at h
          simpa using h.symm
        obtain ⟨a, ha, hm, hr, hee⟩ :=
          processEntry_error_inv catalog c0 avails e0 hpe
        exact ⟨c0, by simp, hsel, a, ha, hm, hr, he0 ▸ hee⟩
      · rcases hgo : gstrGo catalog avails cs with e1 | tl
        · have he1 : e = e1 := by
            simp only [gstrGo, if_pos hsel, hpe, hgo] at h
            simpa using h.symm
          obtain ⟨c1, hc1, hsel1, a1, ha1, hm1, hr1, hee⟩ := ih e1 hgo
          exact ⟨c1, List.mem_cons_of_mem _ hc1, hsel1, a1, ha1, hm1, hr1,
            he1 ▸ hee⟩
        · exfalso
          simp only [gstrGo, if_pos hsel, hpe, hgo] at h
          simp at h
    · simp only [gstrGo, if_neg hsel] at h
      obtain ⟨c1, hc1, hsel1, rest⟩ := ih e h
      exact ⟨c1, List.mem_cons_of_mem _ hc1, hsel1, rest⟩

lemma gstrGo_error_of_offender {S : Type} (catalog : List CatalogEntry)
    (avails : List (AvailableStream S)) :
    ∀ (cs : List CatalogEntry),
      (∃ c ∈ cs, is_stream_selected c = true ∧
        ∃ a ∈ avails, matches_catalog a c = true ∧
          requirements_met a catalog = false) →
      ∃ e, gstrGo catalog avails cs = .error e := by
  intro cs
  induction cs with
  | nil => rintro ⟨c, hc, -⟩; simp at hc
  | cons c0 cs ih =>
    rintro ⟨c, hc, hsel, a, ha, hm, hr⟩
    by_cases hsel0 : is_stream_selected c0 = true
    · rcases hpe : processEntry catalog c0 avails with e0 | hd
      · exact ⟨e0, by simp [gstrGo, hsel0, hpe]⟩
      · have hin : ∃ c' ∈ cs, is_stream_selected c' = true ∧
            ∃ a' ∈ avails, matches_catalog a' c' = true ∧
              requirements_met a' catalog = false := by
          rcases List.mem_cons.mp hc with rfl | hmem
          · obtain ⟨e, he⟩ :=
              processEntry_error_of_unmet catalog c avails ⟨a, ha, hm, hr⟩
            rw [hpe] at he
            exact absurd he (by simp)
          · exact ⟨c, hmem, hsel, a, ha, hm, hr⟩
        obtain ⟨e, he⟩ := ih hin
        exact ⟨e, by simp [gstrGo, hsel0, hpe, he]⟩
    · have hin : ∃ c' ∈ cs, is_stream_selected c' = true ∧
          ∃ a' ∈ avails, matches_catalog a' c' = true ∧
            requirements_met a' catalog = false := by
        rcases List.mem_cons.mp hc with rfl | hmem
        · exact absurd hsel hsel0
        · exact ⟨c, hmem, hsel, a, ha, hm, hr⟩
      obtain ⟨e, he⟩ := ih hin
      exact ⟨e, by simp [gstrGo, hsel0, he]⟩

/-- C8: when some selected catalog entry matches an available stream
whose declared prerequisites are not all selected, sync mode raises a
configuration error before performing any HTTP resource call (the
outcome records zero calls); the error comes from such an offending
selected stream and carries that stream's `REQUIRES` list as the names
in its message, so every missing prerequisite is named in it. -/
theorem c8_unmet_prerequisite_fails_fast {S : Type}
    (catalog : List CatalogEntry) (avails : List (AvailableStream S)) (st : S)
    (c : CatalogEntry) (hc : c ∈ catalog)
    (hsel : is_stream_selected c = true)
    (a : AvailableStream S) (ha : a ∈ avails)
    (hm : matches_catalog a c = true)
    (hreq : requirements_met a catalog = false) :
    ∃ e : ConfigError,
      (do_sync catalog avails st).httpCalls = 0 ∧
      (do_sync catalog avails st).result = .error e ∧
      ∃ c' ∈ catalog, is_stream_selected c' = true ∧
        ∃ a' ∈ avails, matches_catalog a' c' = true ∧
          requirements_met a' catalog = false ∧
          e.stream = c'.stream ∧ e.requires = a'.REQUIRES ∧
          ∀ r ∈ a'.REQUIRES,
            catalog.any (fun d => d.stream = r && d.selected) = false →
              r ∈ e.requires := by
  obtain ⟨e, he⟩ := gstrGo_error_of_offender catalog avails catalog
    ⟨c, hc, hsel, a, ha, hm, hreq⟩
  obtain ⟨c', hc', hsel', a', ha', hm', hr', hee⟩ :=
    gstrGo_error_inv catalog avails catalog e he
  refine ⟨e, ?_, ?_, c', hc', hsel', a', ha', hm', hr', ?_, ?_, ?_⟩
  · simp [do_sync, get_streams_to_replicate, he]
  · simp [do_sync, get_streams_to_replicate, he]
  · rw [hee]
  · rw [hee]
  · intro r hrin _
    rw [hee]
    exact hrin

/-- Witness for C8: the selected `orders` stream requires `buyers`,
which no catalog entry selects; sync fails with a configuration error
naming `buyers`, after zero HTTP resource calls. -/
theorem c8_unmet_prerequisite_fails_fast_witness :
    ∃ e : ConfigError,
      (do_sync [(⟨"orders", true⟩ : CatalogEntry)]
          [(⟨"orders", ["buyers"], fun s => s, 2⟩ : AvailableStream Nat)]
          0).httpCalls = 0 ∧
      (do_sync [(⟨"orders", true⟩ : CatalogEntry)]
          [(⟨"orders", ["buyers"], fun s => s, 2⟩ : AvailableStream Nat)]
          0).result = .error e ∧
      ∃ c' ∈ [(⟨"orders", true⟩ : CatalogEntry)],
        is_stream_selected c' = true ∧
        ∃ a' ∈ [(⟨"orders", ["buyers"], fun s => s, 2⟩ : AvailableStream Nat)],
          matches_catalog a' c' = true ∧
          requirements_met a' [(⟨"orders", true⟩ : CatalogEntry)] = false ∧
          e.stream = c'.stream ∧ e.requires = a'.REQUIRES ∧
          ∀ r ∈ a'.REQUIRES,
            [(⟨"orders", true⟩ : CatalogEntry)].any
                (fun d => d.stream = r && d.selected) = false →
              r ∈ e.requires :=
  c8_unmet_prerequisite_fails_fast
    [(⟨"orders", true⟩ : CatalogEntry)]
    [(⟨"orders", ["buyers"], fun s => s, 2⟩ : AvailableStream Nat)] 0
    ⟨"orders", true⟩ (List.mem_singleton.mpr rfl) (by decide)
    ⟨"orders", ["buyers"], fun s => s, 2⟩ (List.mem_singleton.mpr rfl)
    (by decide) (by decide)

end TapEbay
